import Mathlib

/-!
Shallow embedding of the kookee-cartBackend server (src/server.js): the
order dispatch route `POST /send-order`, phone normalization, the
WhatsApp client lifecycle handlers (initialization guard and the
`disconnected` handler), and the process-wide fault containment handlers
(`unhandledRejection` / `uncaughtException`).

External collaborators (Express, whatsapp-web.js, Mongo) appear only as
inputs: the send operation is an oracle argument, and the handlers are
modelled as pure functions from state and event data to a new state plus
a list of emitted effects.
-/

/-! ## String helpers: JS `String.prototype.includes` -/

/-- `occursAt pat s`: `pat` occurs as a contiguous run inside `s` (char lists). -/
def occursAt : List Char → List Char → Bool
  | pat, [] => pat.isEmpty
  | pat, c :: cs => pat.isPrefixOf (c :: cs) || occursAt pat cs

/-- JS `s.includes(pat)`. -/
def strIncludes (s pat : String) : Bool :=
  occursAt pat.toList s.toList

/-! ## JSON values and `JSON.stringify(v, null, 2)`

`orderDetails` arrives as an arbitrary JSON value (the route never
inspects it).  Numbers are modelled as integers; no claim depends on
float formatting. -/

inductive Json where
  | null : Json
  | bool (b : Bool) : Json
  | num (n : Int) : Json
  | str (s : String) : Json
  | arr (elems : List Json) : Json
  | obj (fields : List (String × Json)) : Json

/-- `n` spaces, for pretty-printed indentation. -/
def spacesN (n : Nat) : String :=
  String.mk (List.replicate n ' ')

/-- JSON string escaping for one character. -/
def escapeChar (c : Char) : List Char :=
  if c = '"' then ['\\', '"']
  else if c = '\\' then ['\\', '\\']
  else if c = '\n' then ['\\', 'n']
  else if c = '\t' then ['\\', 't']
  else if c = '\r' then ['\\', 'r']
  else [c]

/-- A JSON string literal, quoted and escaped. -/
def escapeString (s : String) : String :=
  String.mk ('"' :: (s.toList.map escapeChar).flatten ++ ['"'])

mutual

/-- `JSON.stringify` with two-space indentation, at current indent `ind`. -/
def jsonStringify (ind : Nat) : Json → String
  | .null => "null"
  | .bool b => if b then "true" else "false"
  | .num n => toString n
  | .str s => escapeString s
  | .arr [] => "[]"
  | .arr (x :: xs) =>
      "[\n" ++ jsonItems (ind + 2) (x :: xs) ++ "\n" ++ spacesN ind ++ "]"
  | .obj [] => "\x7b\x7d"
  | .obj (f :: fs) =>
      "\x7b\n" ++ jsonFields (ind + 2) (f :: fs) ++ "\n" ++ spacesN ind ++ "\x7d"

/-- Array elements, one per line. -/
def jsonItems (ind : Nat) : List Json → String
  | [] => ""
  | [x] => spacesN ind ++ jsonStringify ind x
  | x :: y :: rest =>
      spacesN ind ++ jsonStringify ind x ++ ",\n" ++ jsonItems ind (y :: rest)

/-- Object fields, one per line. -/
def jsonFields (ind : Nat) : List (String × Json) → String
  | [] => ""
  | [(k, v)] => spacesN ind ++ escapeString k ++ ": " ++ jsonStringify ind v
  | (k, v) :: g :: rest =>
      spacesN ind ++ escapeString k ++ ": " ++ jsonStringify ind v ++ ",\n" ++
        jsonFields ind (g :: rest)

end

/-- The template literal body for `orderDetails`: JS renders
`JSON.stringify(undefined, null, 2)` as the string `undefined`. -/
def stringifyOrderDetails : Option Json → String
  | none => "undefined"
  | some j => jsonStringify 0 j

/-! ## Phone normalization (src/server.js, `formatPhoneNumber`) -/

/-- The digit characters of `s`, in order (`number.replace(/\D/g, '')`). -/
def digitsOf (s : String) : List Char :=
  s.toList.filter Char.isDigit

/-- The digit-stripping / country-prefix / channel-suffix transformation the
route applies to a truthy phone string. -/
def formatPhoneCore (number : String) : String :=
  let ds := digitsOf number
  let ds2 := match ds with
    | '0' :: rest => '2' :: '5' :: '6' :: rest
    | other => other
  String.mk ds2 ++ "@c.us"

/-- `formatPhoneNumber` from src/server.js: `null` (here `none`) exactly on a
falsy input, i.e. the empty string. -/
def formatPhoneNumber (number : String) : Option String :=
  if number = "" then none else some (formatPhoneCore number)

/-! ## The `/send-order` route (src/server.js lines 340-375) -/

/-- The server-side readiness flags the route's guard reads:
`isReady` and the truthiness of `client?.info?.wid`. -/
structure SrvState where
  isReady : Bool
  hasWid : Bool

/-- The request body fields the route destructures; an absent field is
`none` (JS `undefined`). -/
structure OrderReq where
  customerPhone : Option String
  orderDetails : Option Json

/-- The four responses the route can produce. -/
inductive DispatchResult where
  | notReady : DispatchResult
  | missingPhone : DispatchResult
  | sent (recipient : String) : DispatchResult
  | sendError (msg : String) : DispatchResult

/-- The HTTP status each response carries. -/
def httpStatus : DispatchResult → Nat
  | .notReady => 503
  | .missingPhone => 400
  | .sent _ => 200
  | .sendError _ => 500

/-- JS truthiness of `customerPhone`: absent or the empty string. -/
def phoneFalsy : Option String → Bool
  | none => true
  | some s => s == ""

/-- The behaviour of `client.sendMessage(recipient, content)`:
`none` = resolves, `some e` = rejects with message `e`. -/
def SendOracle : Type :=
  String → String → Option String

/-- `safeSendMessage` from src/server.js: logs, and on failure rethrows
(the `throw err` in its catch block). -/
def safeSendMessage (send : SendOracle) (recipient content : String) :
    Except String Unit :=
  match send recipient content with
  | none => Except.ok ()
  | some e => Except.error e

/-- What one call of the route produces: the response, the attempted sends
as (recipient, content) pairs, and the rendered page artifacts (the route
renders none). -/
structure DispatchOut where
  result : DispatchResult
  sends : List (String × String)
  renders : List (List Json)

/-- The fixed message header of the order text. -/
def orderHeader : String := "🍪 *New Order from Kookee*\n\n"

/-- `app.post('/send-order')` from src/server.js: readiness guard, phone
presence check, recipient formatting, one message send via
`safeSendMessage`, catch-all mapping a thrown error to a 500 response. -/
def sendOrder (st : SrvState) (req : OrderReq) (send : SendOracle) :
    DispatchOut :=
  if !st.isReady || !st.hasWid then
    ⟨.notReady, [], []⟩
  else
    match req.customerPhone with
    | none => ⟨.missingPhone, [], []⟩
    | some p =>
      if p = "" then ⟨.missingPhone, [], []⟩
      else
        let recipient := formatPhoneCore p
        let message := orderHeader ++ stringifyOrderDetails req.orderDetails
        match safeSendMessage send recipient message with
        | .ok _ => ⟨.sent p, [(recipient, message)], []⟩
        | .error e => ⟨.sendError e, [(recipient, message)], []⟩

/-- The recipients of the sends one route call attempts. -/
def recipientsOf (st : SrvState) (req : OrderReq) (send : SendOracle) :
    List String :=
  ((sendOrder st req send).sends).map Prod.fst

/-- The route call passes the readiness guard and the phone check, i.e.
reaches the send phase. -/
def reachesSendPhase (st : SrvState) (req : OrderReq) : Bool :=
  st.isReady && st.hasWid && !(phoneFalsy req.customerPhone)

/-- First value bound to key `k` in a JSON object's field list. -/
def lookupField (k : String) : List (String × Json) → Option Json
  | [] => none
  | (k2, v) :: rest => if k2 == k then some v else lookupField k rest

/-- The item list of an order, when `orderDetails` is an object with an
`items` array; the route itself never reads it. -/
def itemsOf (req : OrderReq) : Option (List Json) :=
  match req.orderDetails with
  | some (Json.obj fields) =>
    match lookupField "items" fields with
    | some (Json.arr xs) => some xs
    | _ => none
  | _ => none

/-! ## Session lifecycle (src/server.js, `initializeClient` and the
`disconnected` handler) -/

/-- The module-level lifecycle flags of src/server.js, plus whether
`MONGODB_URI` is configured. -/
structure LifeState where
  isInitializing : Bool
  isReady : Bool
  mongoUriSet : Bool

/-- The side effects the lifecycle code can request.  `purgePersistedSession`
(deleting the MongoDB-stored auth blob) exists in the effect vocabulary so
that its absence from every handler is a statement about the code, not an
artifact of the model. -/
inductive LifeEffect where
  | logLine (s : String) : LifeEffect
  | cleanupLocalSession : LifeEffect
  | purgePersistedSession : LifeEffect
  | scheduleReinit (delayMs : Nat) : LifeEffect
deriving DecidableEq

/-- What the synchronous prefix of one `initializeClient()` call does:
the state it leaves, whether the initialization body goes on to run, and
the effects emitted so far. -/
structure InitStep where
  state : LifeState
  bodyRuns : Bool
  effects : List LifeEffect

/-- The synchronous prefix of `initializeClient` (src/server.js lines
69-80): the `isInitializing` idempotency guard, the `MONGODB_URI` check,
then setting the in-flight flag.  On the single-threaded execution model a
second call issued before the first completes observes the flag already
set. -/
def initializeClientBegin (s : LifeState) : InitStep :=
  if s.isInitializing then
    ⟨s, false, [.logLine "⏳ Initialization already in progress, skipping..."]⟩
  else if !s.mongoUriSet then
    ⟨s, false, [.logLine "❌ MONGODB_URI environment variable is not set."]⟩
  else
    ⟨{ s with isInitializing := true }, true, []⟩

/-- The `client.on('disconnected')` handler (src/server.js lines 168-186):
log, drop the flags, then branch on the reason — NAVIGATION/LOGOUT clean
the local session directory and schedule re-init after 3000 ms, every
other reason schedules re-init after 1000 ms. -/
def onDisconnected (s : LifeState) (reason : String) :
    LifeState × List LifeEffect :=
  let s2 := { s with isInitializing := false, isReady := false }
  if reason = "NAVIGATION" ∨ reason = "LOGOUT" then
    (s2, [.logLine ("⚠️ Client disconnected: " ++ reason),
          .logLine "🔄 Logout/Navigation detected. Scheduling reconnection...",
          .cleanupLocalSession,
          .scheduleReinit 3000])
  else
    (s2, [.logLine ("⚠️ Client disconnected: " ++ reason),
          .logLine "🔄 Attempting immediate reconnection...",
          .scheduleReinit 1000])

/-! ## Fault containment (src/server.js, `process.on('unhandledRejection')`
and `process.on('uncaughtException')`) -/

/-- What a fault handler can do.  `exitProcess` is in the vocabulary so
"never terminates the process" is a checkable statement. -/
inductive FaultAction where
  | warnSuppressed : FaultAction
  | logLoud : FaultAction
  | exitProcess : FaultAction
deriving DecidableEq

/-- The suppression condition of the `unhandledRejection` handler
(src/server.js lines 31-35). -/
def rejectionSafePattern (m : String) : Bool :=
  strIncludes m "Execution context was destroyed" ||
  strIncludes m "Target closed" ||
  strIncludes m "Session closed" ||
  strIncludes m "Protocol error" ||
  (strIncludes m "ENOENT" && strIncludes m ".wwebjs_auth")

/-- The `unhandledRejection` handler: a reason without a message is never
suppressed. -/
def onUnhandledRejection (message : Option String) : List FaultAction :=
  match message with
  | some m =>
    if rejectionSafePattern m then [.warnSuppressed] else [.logLoud]
  | none => [.logLoud]

/-- The suppression condition of the `uncaughtException` handler
(src/server.js lines 44-48); note it lacks the context-destroyed and
session-closed patterns of the rejection handler. -/
def exceptionSafePattern (m : String) : Bool :=
  (strIncludes m "ENOENT" && strIncludes m ".wwebjs_auth") ||
  strIncludes m "Target closed" ||
  strIncludes m "Protocol error"

/-- The `uncaughtException` handler. -/
def onUncaughtException (message : Option String) : List FaultAction :=
  match message with
  | some m =>
    if exceptionSafePattern m then [.warnSuppressed] else [.logLoud]
  | none => [.logLoud]

/-- Modelled from the spec: the spec's list of known safe patterns —
"connection-context destroyed, target/session closed, low-level protocol
error, missing ephemeral session file" — as one predicate over the fault's
message, for stating the claim the handlers are measured against. -/
def specSafePattern (m : String) : Bool :=
  strIncludes m "Execution context was destroyed" ||
  strIncludes m "Target closed" ||
  strIncludes m "Session closed" ||
  strIncludes m "Protocol error" ||
  (strIncludes m "ENOENT" && strIncludes m ".wwebjs_auth")

/-! ## Concrete inputs used by witnesses and counterexamples -/

/-- A ready server: `isReady` set and `client.info.wid` present. -/
def readyState : SrvState := ⟨true, true⟩

/-- A send oracle on which every send resolves. -/
def okSend : SendOracle := fun _ _ => none

/-- A sample line item. -/
def sampleItem : Json :=
  Json.obj [("name", Json.str "cookie"), ("qty", Json.num 2),
            ("unitPrice", Json.num 1500)]

/-- An order with a valid phone and an empty item list. -/
def reqEmptyItems : OrderReq :=
  ⟨some "0775224728", some (Json.obj [("items", Json.arr [])])⟩

/-- An order with a valid phone and 25 items. -/
def req25 : OrderReq :=
  ⟨some "0775224728",
   some (Json.obj [("items", Json.arr (List.replicate 25 sampleItem))])⟩

/-! ## Claims -/

/-- C1: while the session is not ready, `POST /send-order` returns the
503 not-ready failure, attempts zero sends and renders nothing, for every
request body and send behaviour. -/
theorem C1_not_ready_rejects (st : SrvState) (req : OrderReq) (send : SendOracle)
    (h : st.isReady = false) :
    (sendOrder st req send).result = DispatchResult.notReady ∧
    httpStatus (sendOrder st req send).result = 503 ∧
    (sendOrder st req send).sends = [] ∧
    (sendOrder st req send).renders = [] := by
  simp [sendOrder, h, httpStatus]

/-- C1 witness: a not-ready server rejects a well-formed order with 503 and
no sends. -/
theorem C1_not_ready_rejects_witness :
    (sendOrder ⟨false, true⟩ ⟨some "0775224728", some Json.null⟩ okSend).result
      = DispatchResult.notReady ∧
    httpStatus (sendOrder ⟨false, true⟩ ⟨some "0775224728", some Json.null⟩ okSend).result
      = 503 ∧
    (sendOrder ⟨false, true⟩ ⟨some "0775224728", some Json.null⟩ okSend).sends = [] ∧
    (sendOrder ⟨false, true⟩ ⟨some "0775224728", some Json.null⟩ okSend).renders = [] :=
  C1_not_ready_rejects ⟨false, true⟩ ⟨some "0775224728", some Json.null⟩ okSend rfl

/-- C2 counterexample: an order with a valid phone and an empty item list is
not rejected with 400 — the route never inspects the item list, answers 200
and attempts one send. -/
theorem C2_empty_items_counterexample :
    itemsOf reqEmptyItems = some [] ∧
    httpStatus (sendOrder readyState reqEmptyItems okSend).result = 200 ∧
    (sendOrder readyState reqEmptyItems okSend).sends.length = 1 :=
  ⟨rfl, rfl, rfl⟩

/-- C2 amended: on a ready server, only a missing or empty `customerPhone`
triggers the 400 validation failure with zero sends and zero renders; the
item list plays no part in validation. -/
theorem C2_missing_phone_rejects (st : SrvState) (req : OrderReq) (send : SendOracle)
    (hr : st.isReady = true) (hw : st.hasWid = true)
    (hp : phoneFalsy req.customerPhone = true) :
    (sendOrder st req send).result = DispatchResult.missingPhone ∧
    httpStatus (sendOrder st req send).result = 400 ∧
    (sendOrder st req send).sends = [] ∧
    (sendOrder st req send).renders = [] := by
  obtain ⟨cp, od⟩ := req
  cases cp with
  | none => simp [sendOrder, hr, hw, httpStatus]
  | some p =>
    have hp2 : p = "" := by simpa [phoneFalsy] using hp
    subst hp2
    simp [sendOrder, hr, hw, httpStatus]

/-- C2 witness: a ready server rejects an order without a phone with 400 and
no sends. -/
theorem C2_missing_phone_rejects_witness :
    (sendOrder readyState ⟨none, some Json.null⟩ okSend).result
      = DispatchResult.missingPhone ∧
    httpStatus (sendOrder readyState ⟨none, some Json.null⟩ okSend).result = 400 ∧
    (sendOrder readyState ⟨none, some Json.null⟩ okSend).sends = [] ∧
    (sendOrder readyState ⟨none, some Json.null⟩ okSend).renders = [] :=
  C2_missing_phone_rejects readyState ⟨none, some Json.null⟩ okSend rfl rfl rfl

/-- C3 counterexample: no fixed operator address is part of every dispatch's
recipient list — two orders that both reach the send phase have disjoint
(singleton) recipient lists, so the claimed fixed business-operator
recipient does not exist. -/
theorem C3_no_operator_recipient :
    ¬ ∃ op : String, ∀ (st : SrvState) (req : OrderReq) (send : SendOracle),
        reachesSendPhase st req = true → op ∈ recipientsOf st req send := by
  rintro ⟨op, h⟩
  have h1 := h readyState ⟨some "0111", none⟩ okSend (by rfl)
  have h2 := h readyState ⟨some "0222", none⟩ okSend (by rfl)
  have e1 : recipientsOf readyState ⟨some "0111", none⟩ okSend = ["256111@c.us"] := by rfl
  have e2 : recipientsOf readyState ⟨some "0222", none⟩ okSend = ["256222@c.us"] := by rfl
  rw [e1] at h1
  rw [e2] at h2
  simp only [List.mem_singleton] at h1 h2
  subst h1
  exact absurd h2 (by decide)

/-- C3 amended: the recipient list of every dispatch that reaches the send
phase is exactly the one-element list holding the customer's formatted
address; no operator address is ever included. -/
theorem C3_recipients_single_customer (st : SrvState) (req : OrderReq)
    (send : SendOracle) (p : String)
    (hr : st.isReady = true) (hw : st.hasWid = true)
    (hp : req.customerPhone = some p) (hne : p ≠ "") :
    recipientsOf st req send = [formatPhoneCore p] := by
  obtain ⟨cp, od⟩ := req
  cases hp
  unfold recipientsOf sendOrder
  simp only [hr, hw, Bool.not_true, Bool.or_self, Bool.false_eq_true, if_false,
    if_neg hne]
  cases safeSendMessage send (formatPhoneCore p)
      (orderHeader ++ stringifyOrderDetails od) <;> simp

/-- C3 witness: a ready dispatch of a valid order has exactly the customer's
formatted address as recipient. -/
theorem C3_recipients_single_customer_witness :
    recipientsOf readyState ⟨some "0775224728", none⟩ okSend
      = [formatPhoneCore "0775224728"] :=
  C3_recipients_single_customer readyState ⟨some "0775224728", none⟩ okSend
    "0775224728" rfl rfl rfl (by decide)

/-- C4 counterexample: a non-empty phone with no digits at all — invalid on
any reading — still yields a recipient entry, the bare channel suffix,
rather than none. -/
theorem C4_digitless_phone_counterexample :
    digitsOf "abc" = [] ∧ formatPhoneNumber "abc" = some "@c.us" :=
  ⟨rfl, rfl⟩

/-- C4 amended: normalization keeps the digits, rewrites a leading 0 to the
256 country prefix and appends the `@c.us` channel suffix
(`formatPhoneNumber "0775224728" = some "256775224728@c.us"`); it yields
none exactly on the empty string, and every non-empty input — however
invalid — yields an address, never an error. -/
theorem C4_format_phone_amended :
    formatPhoneNumber "0775224728" = some "256775224728@c.us" ∧
    formatPhoneNumber "" = none ∧
    (∀ s : String, formatPhoneNumber s = none ↔ s = "") ∧
    (∀ s : String, s ≠ "" → formatPhoneNumber s = some (formatPhoneCore s)) := by
  refine ⟨rfl, rfl, ?_, ?_⟩
  · intro s
    by_cases h : s = "" <;> simp [formatPhoneNumber, h]
  · intro s h
    simp [formatPhoneNumber, h]

/-- C5 counterexample: an order with 25 items that reaches the send phase is
not partitioned into ceil(25/10) = 3 pages — the route renders zero pages
and sends one text message. -/
theorem C5_no_pagination_counterexample :
    itemsOf req25 = some (List.replicate 25 sampleItem) ∧
    (List.replicate 25 sampleItem).length = 25 ∧
    reachesSendPhase readyState req25 = true ∧
    (sendOrder readyState req25 okSend).renders = [] ∧
    (sendOrder readyState req25 okSend).renders.length ≠ (25 + 10 - 1) / 10 :=
  ⟨rfl, rfl, rfl, rfl, by decide⟩

/-- C5 amended: the route performs no pagination at all — every dispatch
that reaches the send phase renders zero pages and attempts exactly one
send, whatever the item count. -/
theorem C5_single_message_no_pages (st : SrvState) (req : OrderReq)
    (send : SendOracle) (p : String)
    (hr : st.isReady = true) (hw : st.hasWid = true)
    (hp : req.customerPhone = some p) (hne : p ≠ "") :
    (sendOrder st req send).renders = [] ∧
    (sendOrder st req send).sends.length = 1 := by
  obtain ⟨cp, od⟩ := req
  cases hp
  unfold sendOrder
  simp only [hr, hw, Bool.not_true, Bool.or_self, Bool.false_eq_true, if_false,
    if_neg hne]
  cases safeSendMessage send (formatPhoneCore p)
      (orderHeader ++ stringifyOrderDetails od) <;> simp

/-- C5 witness: the 25-item order renders no pages and yields exactly one
send. -/
theorem C5_single_message_no_pages_witness :
    (sendOrder readyState req25 okSend).renders = [] ∧
    (sendOrder readyState req25 okSend).sends.length = 1 :=
  C5_single_message_no_pages readyState req25 okSend "0775224728" rfl rfl rfl
    (by decide)

/-- C6 counterexample: a failing send is not swallowed — it surfaces in the
dispatch result as a 500 response carrying the failure message. -/
theorem C6_failure_surfaces_counterexample :
    (sendOrder readyState ⟨some "0775224728", none⟩ (fun _ _ => some "boom")).result
      = DispatchResult.sendError "boom" ∧
    httpStatus (sendOrder readyState ⟨some "0775224728", none⟩
      (fun _ _ => some "boom")).result = 500 :=
  ⟨rfl, rfl⟩

/-- C6 amended: `safeSendMessage` catches and logs a send failure but
rethrows it, so the failure aborts the dispatch and surfaces as a 500 error
response with the failure's message — strict, not best-effort, behaviour is
the default of src/server.js. -/
theorem C6_send_failure_rethrown (st : SrvState) (req : OrderReq)
    (send : SendOracle) (p e : String)
    (hr : st.isReady = true) (hw : st.hasWid = true)
    (hp : req.customerPhone = some p) (hne : p ≠ "")
    (hfail : send (formatPhoneCore p)
      (orderHeader ++ stringifyOrderDetails req.orderDetails) = some e) :
    (sendOrder st req send).result = DispatchResult.sendError e ∧
    httpStatus (sendOrder st req send).result = 500 := by
  obtain ⟨cp, od⟩ := req
  cases hp
  unfold sendOrder safeSendMessage
  simp only [hr, hw, Bool.not_true, Bool.or_self, Bool.false_eq_true, if_false,
    if_neg hne] at hfail ⊢
  simp [hfail, httpStatus]

/-- C6 witness: a dispatch whose send rejects with "boom" answers 500 with
that message. -/
theorem C6_send_failure_rethrown_witness :
    (sendOrder readyState ⟨some "0700123456", some Json.null⟩
      (fun _ _ => some "boom")).result = DispatchResult.sendError "boom" ∧
    httpStatus (sendOrder readyState ⟨some "0700123456", some Json.null⟩
      (fun _ _ => some "boom")).result = 500 :=
  C6_send_failure_rethrown readyState ⟨some "0700123456", some Json.null⟩
    (fun _ _ => some "boom") "0700123456" "boom" rfl rfl rfl (by decide) rfl

/-- C7: the `isInitializing` guard makes `initialize()` single-flight — a
call that begins while no other is in flight sets the flag and runs the
body; a call observed while one is in flight (in particular the second of
two calls issued before either completes) mutates nothing, emits only a
log line, and its body never runs, so exactly one initialization sequence
runs. -/
theorem C7_initialize_idempotency_guard (s : LifeState)
    (huri : s.mongoUriSet = true) (hidle : s.isInitializing = false) :
    (initializeClientBegin s).bodyRuns = true ∧
    (initializeClientBegin (initializeClientBegin s).state).bodyRuns = false ∧
    (initializeClientBegin (initializeClientBegin s).state).state
      = (initializeClientBegin s).state ∧
    (∀ t : LifeState, t.isInitializing = true →
      (initializeClientBegin t).state = t ∧
      (initializeClientBegin t).bodyRuns = false) := by
  refine ⟨?_, ?_, ?_, ?_⟩
  · simp [initializeClientBegin, huri, hidle]
  · simp [initializeClientBegin, huri, hidle]
  · simp [initializeClientBegin, huri, hidle]
  · intro t ht
    simp [initializeClientBegin, ht]

/-- C7 witness: from an idle configured state, the first call proceeds and
the second is a no-op. -/
theorem C7_initialize_idempotency_guard_witness :
    (initializeClientBegin ⟨false, false, true⟩).bodyRuns = true ∧
    (initializeClientBegin (initializeClientBegin ⟨false, false, true⟩).state).bodyRuns
      = false ∧
    (initializeClientBegin (initializeClientBegin ⟨false, false, true⟩).state).state
      = (initializeClientBegin ⟨false, false, true⟩).state ∧
    (∀ t : LifeState, t.isInitializing = true →
      (initializeClientBegin t).state = t ∧
      (initializeClientBegin t).bodyRuns = false) :=
  C7_initialize_idempotency_guard ⟨false, false, true⟩ rfl rfl

/-- C8 counterexample: on `disconnected("LOGOUT")` the handler cleans the
local session directory and schedules re-init after 3000 ms, but never
purges the persisted (store-backed) session artifacts. -/
theorem C8_no_persisted_purge_counterexample :
    (onDisconnected ⟨false, true, true⟩ "LOGOUT").2 =
      [LifeEffect.logLine "⚠️ Client disconnected: LOGOUT",
       LifeEffect.logLine "🔄 Logout/Navigation detected. Scheduling reconnection...",
       LifeEffect.cleanupLocalSession,
       LifeEffect.scheduleReinit 3000] ∧
    LifeEffect.purgePersistedSession ∉ (onDisconnected ⟨false, true, true⟩ "LOGOUT").2 := by
  exact ⟨rfl, by decide⟩

/-- C8 amended: a disconnect with reason NAVIGATION or LOGOUT purges only
the local session artifacts before re-init is scheduled after a 3000 ms
delay; any other reason schedules re-init after a 1000 ms delay without
purging; persisted session artifacts are never purged by the handler, and
the handler always clears the in-flight and ready flags. -/
theorem C8_disconnect_classification (s : LifeState) (reason : String) :
    ((reason = "NAVIGATION" ∨ reason = "LOGOUT") →
      (onDisconnected s reason).2 =
        [LifeEffect.logLine ("⚠️ Client disconnected: " ++ reason),
         LifeEffect.logLine "🔄 Logout/Navigation detected. Scheduling reconnection...",
         LifeEffect.cleanupLocalSession,
         LifeEffect.scheduleReinit 3000]) ∧
    (¬(reason = "NAVIGATION" ∨ reason = "LOGOUT") →
      (onDisconnected s reason).2 =
        [LifeEffect.logLine ("⚠️ Client disconnected: " ++ reason),
         LifeEffect.logLine "🔄 Attempting immediate reconnection...",
         LifeEffect.scheduleReinit 1000]) ∧
    LifeEffect.purgePersistedSession ∉ (onDisconnected s reason).2 ∧
    (onDisconnected s reason).1.isInitializing = false ∧
    (onDisconnected s reason).1.isReady = false := by
  by_cases h : reason = "NAVIGATION" ∨ reason = "LOGOUT" <;>
    simp [onDisconnected, h]

/-- C9 counterexample: the claimed iff fails — "Session closed" matches the
known safe patterns (target/session closed), yet the `uncaughtException`
handler does not suppress it: it logs loudly.  Only the rejection handler
suppresses it. -/
theorem C9_exception_pattern_gap_counterexample :
    specSafePattern "Session closed" = true ∧
    onUncaughtException (some "Session closed") = [FaultAction.logLoud] ∧
    onUnhandledRejection (some "Session closed") = [FaultAction.warnSuppressed] :=
  ⟨rfl, rfl, rfl⟩

/-- C9 amended: the rejection handler suppresses (warn only) exactly the
faults whose message matches the spec's full safe-pattern list; the
exception handler suppresses exactly the smaller list {missing ephemeral
session file, target closed, protocol error} — context-destroyed and
session-closed exceptions are logged loudly; a fault without a message is
logged loudly; and neither handler ever exits the process. -/
theorem C9_fault_handlers_amended (m : String) :
    (onUnhandledRejection (some m) = [FaultAction.warnSuppressed] ↔
      rejectionSafePattern m = true) ∧
    rejectionSafePattern m = specSafePattern m ∧
    (onUncaughtException (some m) = [FaultAction.warnSuppressed] ↔
      exceptionSafePattern m = true) ∧
    onUnhandledRejection none = [FaultAction.logLoud] ∧
    onUncaughtException none = [FaultAction.logLoud] ∧
    FaultAction.exitProcess ∉ onUnhandledRejection (some m) ∧
    FaultAction.exitProcess ∉ onUncaughtException (some m) := by
  refine ⟨?_, rfl, ?_, rfl, rfl, ?_, ?_⟩
  · rcases Bool.eq_false_or_eq_true (rejectionSafePattern m) with h | h <;>
      simp [onUnhandledRejection, h]
  · rcases Bool.eq_false_or_eq_true (exceptionSafePattern m) with h | h <;>
      simp [onUncaughtException, h]
  · rcases Bool.eq_false_or_eq_true (rejectionSafePattern m) with h | h <;>
      simp [onUnhandledRejection, h]
  · rcases Bool.eq_false_or_eq_true (exceptionSafePattern m) with h | h <;>
      simp [onUncaughtException, h]

/-- C10: for every request handled while the client is ready (readiness flag
set and wid present) whose `customerPhone` is non-empty, the route attempts
exactly one send, addressed solely to the customer's formatted number, with
content the fixed header followed by the JSON serialization of
`orderDetails`; `orderDetails` is never validated — any shape, or its
absence, still produces the send. -/
theorem C10_single_customer_send (st : SrvState) (req : OrderReq)
    (send : SendOracle) (p : String)
    (hr : st.isReady = true) (hw : st.hasWid = true)
    (hp : req.customerPhone = some p) (hne : p ≠ "") :
    (sendOrder st req send).sends =
      [(formatPhoneCore p, orderHeader ++ stringifyOrderDetails req.orderDetails)] := by
  obtain ⟨cp, od⟩ := req
  cases hp
  unfold sendOrder
  simp only [hr, hw, Bool.not_true, Bool.or_self, Bool.false_eq_true, if_false,
    if_neg hne]
  cases safeSendMessage send (formatPhoneCore p)
      (orderHeader ++ stringifyOrderDetails od) <;> simp

/-- C10 witness: a ready dispatch with an absent `orderDetails` still sends —
one message to the formatted customer number whose body serializes the
absent value as `undefined`. -/
theorem C10_single_customer_send_witness :
    (sendOrder ⟨true, true⟩ ⟨some "0775224728", none⟩ okSend).sends =
      [("256775224728@c.us", "🍪 *New Order from Kookee*\n\nundefined")] :=
  C10_single_customer_send ⟨true, true⟩ ⟨some "0775224728", none⟩ okSend
    "0775224728" rfl rfl rfl (by decide)
